import Mathlib

/-!
Verification of the traffic anomaly scoring and attack-pattern classification
subsystem of DoSDefender (`src/utils/data_processing.py`).

The embedding models a pandas `DataFrame` of traffic observations as a list of
observations together with flags recording which of the recognized columns
(`timestamp`, `source_ip`, `bytes`) are present, plus a flag recording whether
the timestamp data currently lives in the frame's index (the source moves the
`timestamp` column into the index with `set_index(..., inplace=True)`).

Numeric values are modelled exactly: Python floats become `ℚ` where the source
only performs field arithmetic, and `ℝ` where the source computes logarithms
(Shannon entropy).  Standard-deviation comparisons `x > mean + 3*std` are
modelled by the equivalent exact condition `mean < x ∧ 9*var < (x-mean)^2`,
and the guard `np.log2 k > 0` by the equivalent `1 < k`; square roots and
base-2 logarithms of naturals are otherwise irrational.  The wall-clock field
`processed_at` (a `datetime.now()` timestamp) is outside the model.
-/

namespace DoSDefender

/-- One traffic observation: a row of the input DataFrame.  `ts` is the
timestamp in epoch seconds, `src` the `source_ip` string, `bytes` the size
field.  A field's value is meaningful only when the corresponding column flag
of the enclosing `Frame` is set. -/
structure Obs where
  ts : Nat
  src : String
  bytes : ℚ
deriving DecidableEq

/-- A traffic batch (pandas DataFrame): the rows plus which recognized columns
are present.  `tsIsIndex` records that the timestamp data has been moved into
the frame's index (after `set_index('timestamp', inplace=True)` the string
`'timestamp'` is no longer in `columns`, so `hasTs` becomes false). -/
structure Frame where
  obs : List Obs
  hasTs : Bool
  tsIsIndex : Bool
  hasSrc : Bool
  hasBytes : Bool
deriving DecidableEq

/-! ## MetricsCalculator (`src/utils/data_processing.py` lines 489-652) -/

/-- Result dict of `MetricsCalculator.calculate_attack_severity`. -/
structure SeverityResult where
  overall_severity : ℚ
  volume_impact : ℚ
  duration_impact : ℚ
  service_impact : ℚ
  severity_level : String
deriving DecidableEq

/-- Model of `MetricsCalculator._get_severity_level` (lines 551-563). -/
def getSeverityLevel (score : ℚ) : String :=
  if 8 ≤ score then ("Critical")
  else if 6 ≤ score then ("High")
  else if 4 ≤ score then ("Medium")
  else if 2 ≤ score then ("Low")
  else ("Minimal")

/-- Model of `MetricsCalculator.calculate_attack_severity` (lines 492-549).
`volume_ratio = traffic_volume / baseline_volume if baseline_volume > 0 else 1`. -/
def calculateAttackSeverity (trafficVolume baselineVolume durationMinutes : ℚ)
    (affectedServices : Int) : SeverityResult :=
  let volRat : ℚ := if 0 < baselineVolume then trafficVolume / baselineVolume else 1
  let volumeScore : ℚ :=
    if 10 < volRat then 4
    else if 5 < volRat then 3
    else if 2 < volRat then 2
    else if 1.5 < volRat then 1
    else 0
  let durationScore : ℚ :=
    if 240 < durationMinutes then 3
    else if 60 < durationMinutes then 2
    else if 15 < durationMinutes then 1
    else 0.5
  let serviceScore : ℚ :=
    if 5 < affectedServices then 3
    else if 2 < affectedServices then 2
    else if 0 < affectedServices then 1
    else 0
  let totalScore := volumeScore + durationScore + serviceScore
  ⟨totalScore, volumeScore, durationScore, serviceScore, getSeverityLevel totalScore⟩

/-- Result dict of `MetricsCalculator.calculate_business_impact`. -/
structure ImpactResult where
  direct_revenue_loss : ℚ
  recovery_costs : ℚ
  opportunity_cost : ℚ
  reputation_damage : ℚ
  total_business_impact : ℚ
  impact_per_hour : ℚ
deriving DecidableEq

/-- Model of `MetricsCalculator.calculate_business_impact` (lines 614-652).  The source
declares the default `reputation_impact_factor=0.3`; callers of this model
pass the factor explicitly. -/
def calculateBusinessImpact (hourlyRevenue outageDurationHours
    performanceDegradationPercent reputationImpactFactor : ℚ) : ImpactResult :=
  let directLoss : ℚ :=
    if 100 ≤ performanceDegradationPercent then
      hourlyRevenue * outageDurationHours
    else
      hourlyRevenue * outageDurationHours * (performanceDegradationPercent / 100)
  let recoveryCosts := directLoss * 0.15
  let opportunityCost := directLoss * 0.25
  let reputationDamage := directLoss * reputationImpactFactor
  let totalImpact := directLoss + recoveryCosts + opportunityCost + reputationDamage
  ⟨directLoss, recoveryCosts, opportunityCost, reputationDamage, totalImpact,
    totalImpact / max outageDurationHours 0.1⟩

/-- A before/after metrics dict restricted to the three keys that
`calculate_mitigation_effectiveness` ever reads; `none` models an absent key. -/
structure MetricsMap where
  traffic_volume : Option ℚ
  response_time : Option ℚ
  error_rate : Option ℚ
deriving DecidableEq

/-- The common shape of the three per-metric blocks of
`calculate_mitigation_effectiveness` (lines 580-605): when the key is present
in both dicts and the baseline value is positive, the percentage change
clamped to `[0, 100]`; otherwise the key is left out of the result. -/
def improvementPct (b c : Option ℚ) : Option ℚ :=
  match b, c with
  | some bv, some cv =>
      if 0 < bv then some (max 0 (min 100 ((bv - cv) / bv * 100))) else none
  | _, _ => none

/-- Result dict of `calculate_mitigation_effectiveness`; `none` models an
absent key. -/
structure Effectiveness where
  traffic_reduction : Option ℚ
  response_time_improvement : Option ℚ
  error_rate_reduction : Option ℚ
  overall_effectiveness : Option ℚ
deriving DecidableEq

/-- Model of `MetricsCalculator.calculate_mitigation_effectiveness` (lines 565-612).
`overall_effectiveness = np.mean(list(effectiveness.values()))` is added only
when at least one per-metric entry exists. -/
def calculateMitigationEffectiveness (baseline current : MetricsMap) : Effectiveness :=
  let tr := improvementPct baseline.traffic_volume current.traffic_volume
  let rt := improvementPct baseline.response_time current.response_time
  let er := improvementPct baseline.error_rate current.error_rate
  let vals := ([tr, rt, er].filterMap id)
  ⟨tr, rt, er, if vals.isEmpty then none else some (vals.sum / vals.length)⟩

/-! ## Claim theorems for the MetricsCalculator -/

/-- C4 (counterexample): `attack_severity(1000, 100, 300, 6)` does **not**
return volume_score 4 and overall severity 10: the volume ratio is exactly 10
and the source tests the strict `volume_ratio > 10`, so the volume sub-score
is 3 and the overall severity is 9. -/
theorem c4_counterexample :
    (calculateAttackSeverity 1000 100 300 6).volume_impact ≠ 4 ∧
    (calculateAttackSeverity 1000 100 300 6).overall_severity ≠ 10 := by
  norm_num [calculateAttackSeverity, getSeverityLevel]

/-- C4 (amended): `attack_severity(traffic_volume=1000, baseline_volume=100,
duration_minutes=300, affected_services=6)` returns volume_score = 3 (the
ratio is exactly 10, not `> 10`), duration_score = 3, service_score = 3,
overall severity = 9, and severity_level = "Critical". -/
theorem c4_attack_severity_scenario :
    calculateAttackSeverity 1000 100 300 6 = ⟨9, 3, 3, 3, "Critical"⟩ := by
  norm_num [calculateAttackSeverity, getSeverityLevel]

/-- C7: `business_impact(hourly_revenue=10000, outage_hours=4,
degradation_pct=100)` with the default reputation factor 0.3 returns
direct_loss = 40000, recovery_costs = 6000, opportunity_cost = 10000,
reputation_damage = 12000, and total = 68000. -/
theorem c7_business_impact_scenario :
    (calculateBusinessImpact 10000 4 100 0.3).direct_revenue_loss = 40000 ∧
    (calculateBusinessImpact 10000 4 100 0.3).recovery_costs = 6000 ∧
    (calculateBusinessImpact 10000 4 100 0.3).opportunity_cost = 10000 ∧
    (calculateBusinessImpact 10000 4 100 0.3).reputation_damage = 12000 ∧
    (calculateBusinessImpact 10000 4 100 0.3).total_business_impact = 68000 := by
  norm_num [calculateBusinessImpact]

/-- Helper: every value produced by `improvementPct` lies in `[0, 100]`, and a
value is produced only when both inputs are present. -/
theorem improvementPct_mem_Icc (b c : Option ℚ) (v : ℚ)
    (h : improvementPct b c = some v) : 0 ≤ v ∧ v ≤ 100 := by
  rcases b with _ | bv <;> rcases c with _ | cv <;> simp [improvementPct] at h
  rcases h with ⟨-, hv⟩
  constructor
  · rw [← hv]; exact le_max_left 0 _
  · rw [← hv]
    exact max_le (by norm_num) (min_le_left 100 _)

/-- Helper: `improvementPct` yields `none` when either input is absent. -/
theorem improvementPct_none (b c : Option ℚ) (h : b = none ∨ c = none) :
    improvementPct b c = none := by
  rcases b with _ | bv <;> rcases c with _ | cv <;> simp_all [improvementPct]

/-- C8: every per-metric improvement reported by
`calculate_mitigation_effectiveness` lies in `[0, 100]`; a metric absent from
either input is skipped (its key is absent from the result); and when no
metric is comparable the result is the empty report: no per-metric entry, no
`overall_effectiveness` field, and no error. -/
theorem c8_mitigation_effectiveness (baseline current : MetricsMap) :
    (∀ v, (calculateMitigationEffectiveness baseline current).traffic_reduction = some v →
      0 ≤ v ∧ v ≤ 100) ∧
    (∀ v, (calculateMitigationEffectiveness baseline current).response_time_improvement = some v →
      0 ≤ v ∧ v ≤ 100) ∧
    (∀ v, (calculateMitigationEffectiveness baseline current).error_rate_reduction = some v →
      0 ≤ v ∧ v ≤ 100) ∧
    ((baseline.traffic_volume = none ∨ current.traffic_volume = none) →
      (calculateMitigationEffectiveness baseline current).traffic_reduction = none) ∧
    ((baseline.response_time = none ∨ current.response_time = none) →
      (calculateMitigationEffectiveness baseline current).response_time_improvement = none) ∧
    ((baseline.error_rate = none ∨ current.error_rate = none) →
      (calculateMitigationEffectiveness baseline current).error_rate_reduction = none) ∧
    (((baseline.traffic_volume = none ∨ current.traffic_volume = none) ∧
      (baseline.response_time = none ∨ current.response_time = none) ∧
      (baseline.error_rate = none ∨ current.error_rate = none)) →
      calculateMitigationEffectiveness baseline current = ⟨none, none, none, none⟩) := by
  refine ⟨?_, ?_, ?_, ?_, ?_, ?_, ?_⟩
  · intro v h
    exact improvementPct_mem_Icc _ _ v (by simpa [calculateMitigationEffectiveness] using h)
  · intro v h
    exact improvementPct_mem_Icc _ _ v (by simpa [calculateMitigationEffectiveness] using h)
  · intro v h
    exact improvementPct_mem_Icc _ _ v (by simpa [calculateMitigationEffectiveness] using h)
  · intro h
    simp [calculateMitigationEffectiveness, improvementPct_none _ _ h]
  · intro h
    simp [calculateMitigationEffectiveness, improvementPct_none _ _ h]
  · intro h
    simp [calculateMitigationEffectiveness, improvementPct_none _ _ h]
  · rintro ⟨h1, h2, h3⟩
    simp [calculateMitigationEffectiveness, improvementPct_none _ _ h1,
      improvementPct_none _ _ h2, improvementPct_none _ _ h3]

/-- C8 (witness): for the concrete inputs `{traffic_volume: 100}` before and
`{traffic_volume: 25}` after, the reported traffic reduction is 75 and lies in
`[0, 100]`. -/
theorem c8_mitigation_effectiveness_witness :
    (calculateMitigationEffectiveness ⟨some 100, none, none⟩ ⟨some 25, none, none⟩).traffic_reduction
        = some 75 ∧
    (0 ≤ (75 : ℚ) ∧ (75 : ℚ) ≤ 100) :=
  ⟨by norm_num [calculateMitigationEffectiveness, improvementPct, max_def, min_def],
    (c8_mitigation_effectiveness ⟨some 100, none, none⟩ ⟨some 25, none, none⟩).1 75
      (by norm_num [calculateMitigationEffectiveness, improvementPct, max_def, min_def])⟩

/-! ## AttackPatternAnalyzer (lines 237-487) -/

/-- First-occurrence deduplication, used both for the distinct keys of
`value_counts()`/`nunique()` and for `list(set(...))` (whose order Python
leaves unspecified; no claim depends on the order). -/
def dedupFirst (l : List String) : List String :=
  l.foldl (fun acc s => if s ∈ acc then acc else acc ++ [s]) []

/-- The distinct-source count and per-source counts underlying
`data['source_ip'].value_counts()`. -/
def sourceCountPairs (l : List Obs) : List (String × Nat) :=
  (dedupFirst (l.map (fun o => o.src))).map
    (fun s => (s, (l.filter (fun o => o.src == s)).length))

/-- Insertion into a count-descending list (sorting step of `value_counts`). -/
def insertByCount (p : String × Nat) : List (String × Nat) → List (String × Nat)
  | [] => [p]
  | q :: t => if q.2 < p.2 then p :: q :: t else q :: insertByCount p t

/-- Model of `data['source_ip'].value_counts()`: per-source counts sorted by count
descending (pandas tie order is not modelled; no claim depends on it). -/
def valueCounts (l : List Obs) : List (String × Nat) :=
  (sourceCountPairs l).foldr insertByCount []

/-- Model of `source_counts.iloc[0]`: the largest per-source count (0 on empty). -/
def topSourceCount (l : List Obs) : Nat :=
  ((valueCounts l).head?.map (fun p => p.2)).getD 0

/-- The share `(source_counts.iloc[0] / len(data)) * 100`. -/
def topSourcePct (l : List Obs) : ℚ :=
  (topSourceCount l : ℚ) / (l.length : ℚ) * 100

/-- The mean `data['bytes'].mean()`. -/
def meanBytes (l : List Obs) : ℚ :=
  (l.map (fun o => o.bytes)).sum / (l.length : ℚ)

/-- The `np.mean` of a list of floats (all callers guard against the empty list). -/
def npMean (l : List ℚ) : ℚ := l.sum / (l.length : ℚ)

/-- The signature catalog `_load_known_patterns` (lines 280-331): pattern name
and description.  The `characteristics` and `detection_rules` entries of the
source catalog are inert data never read by the analysis logic. -/
def knownPatterns : List (String × String) :=
  [("syn_flood", "TCP SYN flood attack pattern"),
   ("udp_flood", "UDP flood attack pattern"),
   ("http_flood", "HTTP flood attack pattern"),
   ("amplification", "DNS/NTP amplification attack")]

/-- The key list `self.known_patterns.keys()`. -/
def knownPatternNames : List String := knownPatterns.map (fun p => p.1)

/-- The lookup `self.known_patterns.get(pattern_name, {})`, reduced to the description
(the only field the analysis reads); `none` models the missing key. -/
def lookupPattern (patternName : String) : Option String :=
  (knownPatterns.find? (fun p => p.1 == patternName)).map (fun p => p.2)

/-- Model of `_analyze_syn_flood_pattern` (lines 375-394): factor 0.7 appended when
the batch has more than 1000 rows; when a `source_ip` column exists and is
non-empty, factor 0.8 when the top source exceeds 30% of the batch, else
0.3. -/
def analyzeSynFloodFactors (F : Frame) : List ℚ :=
  (if 1000 < F.obs.length then [(0.7 : ℚ)] else []) ++
  (if F.hasSrc then
    (if F.obs.isEmpty then []
     else if 30 < topSourcePct F.obs then [(0.8 : ℚ)] else [(0.3 : ℚ)])
   else [])

/-- Model of `_analyze_udp_flood_pattern` (lines 396-412): factor 0.6 when more than
500 rows; when a `source_ip` column exists, 0.7 when `nunique() > 100`, else
0.4. -/
def analyzeUdpFloodFactors (F : Frame) : List ℚ :=
  (if 500 < F.obs.length then [(0.6 : ℚ)] else []) ++
  (if F.hasSrc then
    (if 100 < (dedupFirst (F.obs.map (fun o => o.src))).length
     then [(0.7 : ℚ)] else [(0.4 : ℚ)])
   else [])

/-- Model of `_analyze_http_flood_pattern` (lines 414-426): a single tiered factor on
batch size. -/
def analyzeHttpFloodFactors (F : Frame) : List ℚ :=
  if 2000 < F.obs.length then [(0.8 : ℚ)]
  else if 800 < F.obs.length then [(0.5 : ℚ)]
  else [(0.2 : ℚ)]

/-- Model of `_analyze_amplification_pattern` (lines 428-440): when a `bytes` column
exists, factor 0.7 when the mean size exceeds 1000, else 0.3. -/
def analyzeAmplificationFactors (F : Frame) : List ℚ :=
  if F.hasBytes then
    (if 1000 < meanBytes F.obs then [(0.7 : ℚ)] else [(0.3 : ℚ)])
  else []

/-- The pattern-name dispatch of `_analyze_specific_pattern`
(lines 351-358). -/
def patternFactors (F : Frame) (patternName : String) : List ℚ :=
  if patternName == "syn_flood" then analyzeSynFloodFactors F
  else if patternName == "udp_flood" then analyzeUdpFloodFactors F
  else if patternName == "http_flood" then analyzeHttpFloodFactors F
  else if patternName == "amplification" then analyzeAmplificationFactors F
  else []

/-- The severity assignment of `_analyze_specific_pattern`
(lines 365-371). -/
def severityOfConfidence (c : ℚ) : String :=
  if 0.8 < c then ("high") else if 0.5 < c then ("medium") else ("low")

/-- One entry of `detected_patterns`.  `indicators` holds the raw confidence
factors; the source renders each as the string `"Factor i: x.xx"`. -/
structure PatternResult where
  pattern_name : String
  description : String
  confidence : ℚ
  indicators : List ℚ
  severity : String
deriving DecidableEq

/-- Model of `AttackPatternAnalyzer._analyze_specific_pattern` (lines 333-373).  The
result dict is created with confidence 0 and severity low; on an unknown
pattern or an empty batch it is returned unchanged, otherwise the factor mean
becomes the confidence (kept at 0 for an empty factor list) and the severity
is recomputed from it. -/
def analyzeSpecificPattern (F : Frame) (patternName : String) : PatternResult :=
  let desc := lookupPattern patternName
  if desc.isNone || F.obs.isEmpty then
    ⟨patternName, desc.getD (""), 0, [], ("low")⟩
  else
    let factors := patternFactors F patternName
    let conf := if factors.isEmpty then 0 else npMean factors
    ⟨patternName, desc.getD (""), conf, factors, severityOfConfidence conf⟩

/-- The `results` dict of `analyze_attack_pattern`.  The source also carries
`confidence_scores` and `attack_characteristics`, both of which stay empty
dicts on every path and are not modelled. -/
structure AnalysisResults where
  detected_patterns : List PatternResult
  recommendations : List String
deriving DecidableEq

/-- Model of `AttackPatternAnalyzer._generate_recommendations` (lines 442-487).
`list(set(recommendations))` has unspecified order in Python; the model keeps
first occurrences.  No claim depends on the order. -/
def generateRecommendations (detected : List PatternResult) : List String :=
  if detected.isEmpty then
    ["No specific attack patterns detected - continue normal monitoring"]
  else
    let names := (detected.filter (fun p => 0.5 < p.confidence)).map
      (fun p => p.pattern_name)
    let recs :=
      (if ("syn_flood" ∈ names) then
        ["Enable SYN cookies on servers",
         "Configure SYN flood protection on firewalls",
         "Implement connection rate limiting"] else []) ++
      (if ("udp_flood" ∈ names) then
        ["Implement UDP rate limiting",
         "Configure ingress filtering",
         "Enable UDP flood protection"] else []) ++
      (if ("http_flood" ∈ names) then
        ["Enable HTTP request rate limiting",
         "Deploy Web Application Firewall (WAF)",
         "Implement CAPTCHA challenges for suspicious sources"] else []) ++
      (if ("amplification" ∈ names) then
        ["Implement BCP38 ingress filtering",
         "Configure response rate limiting on public services",
         "Monitor for source IP spoofing"] else []) ++
      ["Activate enhanced monitoring and alerting",
       "Consider enabling DDoS protection services",
       "Document incident for future analysis"]
    dedupFirst recs

/-- Model of `AttackPatternAnalyzer.analyze_attack_pattern` (lines 243-278).  On an
empty batch the initial results dict is returned unchanged (no
recommendations).  With an explicit `attack_type` the single pattern result is
appended unconditionally; otherwise all catalog patterns are evaluated and
those with confidence above 0.3 are retained. -/
def analyzeAttackPattern (F : Frame) (attackType : Option String) : AnalysisResults :=
  if F.obs.isEmpty then ⟨[], []⟩
  else
    let pats :=
      match attackType with
      | some t => [analyzeSpecificPattern F t]
      | none =>
          (knownPatternNames.map (fun n => analyzeSpecificPattern F n)).filter
            (fun r => 0.3 < r.confidence)
    ⟨pats, generateRecommendations pats⟩

/-! ## Claim theorems for the AttackPatternAnalyzer -/

/-- Helper: the severity string is the threshold map of the confidence on
every path of `_analyze_specific_pattern`. -/
theorem analyzeSpecificPattern_severity_eq (F : Frame) (patternName : String) :
    (analyzeSpecificPattern F patternName).severity =
      severityOfConfidence (analyzeSpecificPattern F patternName).confidence := by
  by_cases h : ((lookupPattern patternName).isNone || F.obs.isEmpty) = true
  · norm_num [analyzeSpecificPattern, h, severityOfConfidence]
  · simp [analyzeSpecificPattern, h]

/-- Helper: `severityOfConfidence` is high exactly above 0.8. -/
theorem severityOfConfidence_high_iff (c : ℚ) :
    severityOfConfidence c = "high" ↔ 0.8 < c := by
  unfold severityOfConfidence
  split_ifs with h1 h2
  · simpa using h1
  · exact ⟨fun h => absurd h (by decide), fun h => absurd h h1⟩
  · exact ⟨fun h => absurd h (by decide), fun h => absurd h h1⟩

/-- Helper: `severityOfConfidence` is medium exactly on `(0.5, 0.8]`. -/
theorem severityOfConfidence_medium_iff (c : ℚ) :
    severityOfConfidence c = "medium" ↔ (0.5 < c ∧ c ≤ 0.8) := by
  unfold severityOfConfidence
  split_ifs with h1 h2
  · exact ⟨fun h => absurd h (by decide), fun h => absurd h.2 (not_le.mpr h1)⟩
  · exact ⟨fun _ => ⟨h2, not_lt.mp h1⟩, fun _ => rfl⟩
  · exact ⟨fun h => absurd h (by decide), fun h => absurd h.1 h2⟩

/-- Helper: `severityOfConfidence` is low exactly at or below 0.5. -/
theorem severityOfConfidence_low_iff (c : ℚ) :
    severityOfConfidence c = "low" ↔ c ≤ 0.5 := by
  unfold severityOfConfidence
  split_ifs with h1 h2
  · exact ⟨fun h => absurd h (by decide), fun h => absurd h (not_le.mpr (by linarith))⟩
  · exact ⟨fun h => absurd h (by decide), fun h => absurd h (not_le.mpr h2)⟩
  · exact ⟨fun _ => not_lt.mp h2, fun _ => rfl⟩

/-- C5: for every batch and every pattern name, the severity tier reported by
`_analyze_specific_pattern` is derived from its confidence by strict
thresholds: high iff confidence > 0.8, medium iff 0.5 < confidence ≤ 0.8, low
otherwise (so confidence exactly 0.8 is medium and exactly 0.5 is low). -/
theorem c5_severity_tier_thresholds (F : Frame) (patternName : String) :
    ((analyzeSpecificPattern F patternName).severity = "high" ↔
      0.8 < (analyzeSpecificPattern F patternName).confidence) ∧
    ((analyzeSpecificPattern F patternName).severity = "medium" ↔
      (0.5 < (analyzeSpecificPattern F patternName).confidence ∧
        (analyzeSpecificPattern F patternName).confidence ≤ 0.8)) ∧
    ((analyzeSpecificPattern F patternName).severity = "low" ↔
      (analyzeSpecificPattern F patternName).confidence ≤ 0.5) := by
  rw [analyzeSpecificPattern_severity_eq]
  exact ⟨severityOfConfidence_high_iff _, severityOfConfidence_medium_iff _,
    severityOfConfidence_low_iff _⟩

/-- Helper: every confidence factor produced for any catalog pattern (or any
other name) is at most 0.8. -/
theorem patternFactors_le (F : Frame) (patternName : String) :
    ∀ x ∈ patternFactors F patternName, x ≤ 0.8 := by
  intro x hx
  unfold patternFactors analyzeSynFloodFactors analyzeUdpFloodFactors
    analyzeHttpFloodFactors analyzeAmplificationFactors at hx
  split_ifs at hx <;> simp at hx <;>
    first
    | (obtain rfl := hx; norm_num)
    | (obtain rfl | rfl := hx <;> norm_num)

/-- Helper: the mean of a non-empty list of values each at most `b` is at
most `b`. -/
theorem npMean_le_of_forall_le (l : List ℚ) (b : ℚ) (hne : l ≠ [])
    (h : ∀ x ∈ l, x ≤ b) : npMean l ≤ b := by
  have hlen : (0 : ℚ) < (l.length : ℚ) := by
    have := List.length_pos.mpr hne
    exact_mod_cast this
  rw [npMean, div_le_iff₀ hlen]
  have h1 : l.sum ≤ (l.map (fun _ => b)).sum := by
    have := List.sum_le_sum (l := l) (f := fun x => x) (g := fun _ => b) h
    simpa using this
  have h2 : (l.map (fun _ => b)).sum = (l.length : ℚ) * b := by
    induction l with
    | nil => simp
    | cons a t ih => simp [ih]; ring
  rw [h2] at h1
  linarith

/-- C10: for every batch and every pattern name in the built-in catalog, the
computed confidence never exceeds 0.8, and consequently the reported severity
tier is never high. -/
theorem c10_confidence_never_high (F : Frame) (patternName : String)
    (hmem : patternName ∈ knownPatternNames) :
    (analyzeSpecificPattern F patternName).confidence ≤ 0.8 ∧
    (analyzeSpecificPattern F patternName).severity ≠ "high" := by
  have hconf : (analyzeSpecificPattern F patternName).confidence ≤ 0.8 := by
    by_cases h : ((lookupPattern patternName).isNone || F.obs.isEmpty) = true
    · norm_num [analyzeSpecificPattern, h]
    · simp only [analyzeSpecificPattern, h, Bool.false_eq_true, if_false]
      split_ifs with hemp
      · norm_num
      · exact npMean_le_of_forall_le _ _ (by simpa [List.isEmpty_iff] using hemp)
          (patternFactors_le F patternName)
  refine ⟨hconf, ?_⟩
  rw [analyzeSpecificPattern_severity_eq]
  intro hs
  exact absurd ((severityOfConfidence_high_iff _).mp hs) (not_lt.mpr hconf)

/-- C10 (witness): for a concrete one-row batch and the catalog pattern
syn_flood, the confidence is at most 0.8 and the severity is not high. -/
theorem c10_confidence_never_high_witness :
    ("syn_flood" ∈ knownPatternNames) ∧
    ((analyzeSpecificPattern ⟨[⟨0, ("10.0.0.1"), 100⟩], true, false, true, true⟩
        ("syn_flood")).confidence ≤ 0.8 ∧
      (analyzeSpecificPattern ⟨[⟨0, ("10.0.0.1"), 100⟩], true, false, true, true⟩
        ("syn_flood")).severity ≠ "high") :=
  ⟨by decide,
    c10_confidence_never_high ⟨[⟨0, ("10.0.0.1"), 100⟩], true, false, true, true⟩
      ("syn_flood") (by decide)⟩

/-- C2 (counterexample): requesting the unknown pattern name slowloris on a
non-empty batch does **not** fail and does **not** leave the report without an
entry for it: the returned `detected_patterns` list contains exactly one
entry, named slowloris.  (The source has no `UnknownPatternError`;
`_analyze_specific_pattern` falls back to an empty signature dict.) -/
theorem c2_counterexample :
    ((analyzeAttackPattern ⟨[⟨0, ("10.0.0.1"), 100⟩], true, false, true, true⟩
        (some ("slowloris"))).detected_patterns.map (fun r => r.pattern_name))
      = ["slowloris"] := by
  rfl

/-- C2 (amended): for every non-empty batch and every pattern name absent from
the catalog, `analyze_attack_pattern` raises nothing and returns a report
whose `detected_patterns` is exactly one placeholder entry for the requested
name: empty description, confidence 0, no indicators, severity low. -/
theorem c2_unknown_pattern_placeholder (F : Frame) (p : String)
    (hne : F.obs ≠ []) (hp : lookupPattern p = none) :
    (analyzeAttackPattern F (some p)).detected_patterns
      = [⟨p, "", 0, [], "low"⟩] := by
  unfold analyzeAttackPattern analyzeSpecificPattern
  simp [hp, List.isEmpty_iff, hne]

/-- C2 (witness): the amended statement at the concrete one-row batch and the
unknown name slowloris. -/
theorem c2_unknown_pattern_placeholder_witness :
    (analyzeAttackPattern ⟨[⟨0, ("10.0.0.1"), 100⟩], true, false, true, true⟩
        (some ("slowloris"))).detected_patterns
      = [⟨("slowloris"), "", 0, [], "low"⟩] :=
  c2_unknown_pattern_placeholder ⟨[⟨0, ("10.0.0.1"), 100⟩], true, false, true, true⟩
    ("slowloris") (by decide) (by decide)

/-! ## DoSDataProcessor (lines 12-235) -/

/-- Minute bucket of an epoch-second timestamp (`resample('1T')` and
`dt.floor('T')` floor timestamps to the minute). -/
def minuteOf (ts : Nat) : Nat := ts / 60

/-- First minute bucket of the batch. -/
def minMinute (l : List Obs) : Nat :=
  ((l.map (fun o => minuteOf o.ts)).min?).getD 0

/-- Last minute bucket of the batch. -/
def maxMinute (l : List Obs) : Nat :=
  ((l.map (fun o => minuteOf o.ts)).max?).getD 0

/-- Per-minute request counts of `resample('1T').size()`: one bucket per
minute from the first to the last observation (resampling fills interior
empty minutes with count 0). -/
def rpmCounts (l : List Obs) : List Nat :=
  if l.isEmpty then []
  else (List.range (maxMinute l - minMinute l + 1)).map
    (fun i => (l.filter (fun o => minuteOf o.ts == minMinute l + i)).length)

/-- Per-minute byte sums of `resample('1T')['bytes'].sum()`. -/
def bpmSums (l : List Obs) : List ℚ :=
  if l.isEmpty then []
  else (List.range (maxMinute l - minMinute l + 1)).map
    (fun i => ((l.filter (fun o => minuteOf o.ts == minMinute l + i)).map
      (fun o => o.bytes)).sum)

/-- Mean of a rational list, 0 on empty (matching the
`if not ... empty else 0.0` guards of the source). -/
def listMean (l : List ℚ) : ℚ := if l.isEmpty then 0 else l.sum / (l.length : ℚ)

/-- Square of the sample standard deviation `Series.std()` (one delta degree
of freedom).  pandas yields NaN for fewer than two values; the model returns
0 there — no claim reads the value in that case. -/
def listVar (l : List ℚ) : ℚ :=
  if l.length ≤ 1 then 0
  else ((l.map (fun x => (x - listMean l) ^ 2)).sum) / ((l.length : ℚ) - 1)

/-- The dict of `_calculate_time_metrics` (lines 57-82).  The source reports
`std_requests_per_minute = rpm.std()` and `traffic_variability = std/mean`,
both square roots of rationals; the model carries the squared values, which
determine them.  No claim reads either field. -/
structure TimeMetrics where
  avg_requests_per_minute : ℚ
  max_requests_per_minute : ℚ
  var_requests_per_minute : ℚ
  avg_bytes_per_minute : ℚ
  max_bytes_per_minute : ℚ
  total_duration_minutes : Nat
  traffic_variability_sq : ℚ
deriving DecidableEq

/-- Model of `DoSDataProcessor._calculate_time_metrics` (lines 57-82).  Returns the
metrics dict (`none` models the `{}` returned when there is no timestamp
column) together with the frame as mutated by
`data.set_index('timestamp', inplace=True)`: the timestamp column is removed
from the column set and becomes the index. -/
def calculateTimeMetrics (F : Frame) : Option TimeMetrics × Frame :=
  if !F.hasTs then (none, F)
  else
    let F2 : Frame := ⟨F.obs, false, true, F.hasSrc, F.hasBytes⟩
    let rpm : List ℚ := (rpmCounts F.obs).map (fun n => (n : ℚ))
    let bpm : List ℚ := if F.hasBytes then bpmSums F.obs else []
    (some ⟨listMean rpm,
      (rpm.max?).getD 0,
      if rpm.isEmpty then 0 else listVar rpm,
      listMean bpm,
      (bpm.max?).getD 0,
      rpm.length,
      if 0 < listMean rpm then listVar rpm / (listMean rpm) ^ 2 else 0⟩, F2)

/-- One entry of `suspicious_sources`. -/
structure SuspiciousSource where
  source_ip : String
  request_count : Nat
  percentage : ℚ
  reason : String
deriving DecidableEq

/-- Model of `_identify_suspicious_sources` (lines 186-207): sources contributing more
than 5% of total traffic, with their exact percentage. -/
def identifySuspiciousSources (counts : List (String × Nat)) : List SuspiciousSource :=
  if counts.isEmpty then []
  else
    let total : ℚ := ((counts.map (fun p => (p.2 : ℚ))).sum)
    (counts.filter (fun p => total * 0.05 < (p.2 : ℚ))).map
      (fun p => ⟨p.1, p.2, (p.2 : ℚ) / total * 100, ("High volume source")⟩)

/-- Model of `_calculate_entropy` (lines 169-184): Shannon entropy, base 2, of the
normalized count distribution, `-Σ p·log2 p` over the positive
probabilities.  Exact reals replace the source's floats. -/
noncomputable def calculateEntropy (values : List ℚ) : ℝ :=
  if values.isEmpty then 0
  else
    let total := values.sum
    if total = 0 then 0
    else -(((values.filter (fun v => 0 < v)).map
      (fun v => ((v / total : ℚ) : ℝ) * Real.logb 2 ((v / total : ℚ) : ℝ))).sum)

/-- The dict of `_calculate_source_metrics` (lines 84-106). -/
structure SourceMetrics where
  unique_source_ips : Nat
  top_source_requests : Nat
  top_10_source_percentage : ℚ
  source_ip_entropy : ℝ
  source_distribution : List (String × Nat)
  suspicious_sources : List SuspiciousSource

/-- Model of `_calculate_source_metrics` (lines 84-106); `none` models the `{}`
returned when there is no `source_ip` column. -/
noncomputable def calculateSourceMetrics (F : Frame) : Option SourceMetrics :=
  if !F.hasSrc then none
  else
    let counts := valueCounts F.obs
    some ⟨counts.length,
      topSourceCount F.obs,
      (((counts.take 10).map (fun p => (p.2 : ℚ))).sum) / (F.obs.length : ℚ) * 100,
      calculateEntropy (counts.map (fun p => (p.2 : ℚ))),
      counts.take 20,
      identifySuspiciousSources counts⟩

/-- The dict of `_calculate_volume_metrics` (lines 108-125); the byte fields
are present only when the `bytes` column exists. -/
structure VolumeMetrics where
  total_requests : Nat
  requests_per_second : ℚ
  total_bytes : Option ℚ
  avg_bytes_per_request : Option ℚ
  bytes_per_second : Option ℚ
deriving DecidableEq

/-- Model of `_calculate_volume_metrics` (lines 108-125): totals and rates against the
fixed one-hour (3600 s) reference window. -/
def calculateVolumeMetrics (F : Frame) : VolumeMetrics :=
  let n := F.obs.length
  let rps : ℚ := if 0 < n then (n : ℚ) / 3600 else 0
  if F.hasBytes then
    let totalBytes := (F.obs.map (fun o => o.bytes)).sum
    ⟨n, rps, some totalBytes,
      some (if !F.obs.isEmpty then meanBytes F.obs else 0),
      some (if 0 < totalBytes then totalBytes / 3600 else 0)⟩
  else ⟨n, rps, none, none, none⟩

/-- One `high_volume_periods` entry: the minute bucket and its request count.
The source also embeds the float threshold `mean + 3·std` (an irrational
value) in each entry; no claim reads it. -/
structure HighVolumePeriod where
  minute : Nat
  request_count : Nat
deriving DecidableEq

/-- The minute windows whose count strictly exceeds `mean + 3·std` of the
per-window distribution (lines 139-155).  With at most one window the pandas
std is NaN and nothing qualifies.  `c > mean + 3·std` is modelled exactly as
`mean < c ∧ 9·var < (c − mean)²` (std ≥ 0). -/
def highVolumePeriods (l : List Obs) : List HighVolumePeriod :=
  let counts := rpmCounts l
  if counts.length ≤ 1 then []
  else
    let m := listMean (counts.map (fun n => (n : ℚ)))
    let v := listVar (counts.map (fun n => (n : ℚ)))
    (counts.enum).filterMap (fun p =>
      if m < (p.2 : ℚ) ∧ 9 * v < ((p.2 : ℚ) - m) ^ 2
      then some ⟨minMinute l + p.1, p.2⟩ else none)

/-- The `anomalies` dict of `_detect_traffic_anomalies` (lines 127-167).
`unusual_patterns` stays `[]` on every path of the source. -/
structure Anomalies where
  high_volume_periods : List HighVolumePeriod
  source_concentration : Bool
  unusual_patterns : List String
  anomaly_score : ℝ

/-- Model of `_calculate_anomaly_score` (lines 209-235).  The guard
`max_possible_entropy > 0` (`np.log2` of the distinct-source count) is
modelled by the equivalent `1 < count`. -/
noncomputable def calculateAnomalyScore (F : Frame) (hv : List HighVolumePeriod)
    (conc : Bool) : ℝ :=
  let s1 : ℝ := if !hv.isEmpty then min 3 ((hv.length : ℝ) * 0.5) else 0
  let s2 : ℝ := if conc then 3 else 0
  let s3 : ℝ :=
    if F.hasSrc && !F.obs.isEmpty then
      (let counts := valueCounts F.obs
       if 1 < counts.length then
         (1 - calculateEntropy (counts.map (fun p => (p.2 : ℚ))) /
            Real.logb 2 (counts.length : ℝ)) * 2
       else 0)
    else 0
  let s4 : ℝ := if 1000 < F.obs.length then 2 else 0
  min 10 (s1 + s2 + s3 + s4)

/-- Model of `_detect_traffic_anomalies` (lines 127-167).  The high-volume scan runs
only when a `timestamp` **column** is present (after `process`'s time-metrics
step the timestamp lives in the index, so the scan is skipped there). -/
noncomputable def detectTrafficAnomalies (F : Frame) : Anomalies :=
  if F.obs.isEmpty then ⟨[], false, [], 0⟩
  else
    let hv := if F.hasTs then highVolumePeriods F.obs else []
    let conc :=
      if F.hasSrc && !F.obs.isEmpty then decide (20 < topSourcePct F.obs) else false
    ⟨hv, conc, [], calculateAnomalyScore F hv conc⟩

/-- The success dict of `process_traffic_data`; `processed_at`
(`datetime.now().isoformat()`) is outside the model.  `none` time/source
metrics model the `{}` dicts returned when the relevant column is missing. -/
structure ProcOutput where
  time_metrics : Option TimeMetrics
  source_metrics : Option SourceMetrics
  volume_metrics : VolumeMetrics
  anomalies : Anomalies

/-- Result of `process_traffic_data`: either the error dict `{'error': ...}`
or the metrics dict. -/
inductive ProcResult where
  | error (msg : String)
  | ok (out : ProcOutput)

/-- The anomalies block of a successful result, if any. -/
def ProcResult.anomaliesBlock : ProcResult → Option Anomalies
  | .error _ => none
  | .ok out => some out.anomalies

/-- Model of `DoSDataProcessor.process_traffic_data` (lines 20-55), returning the
result together with the input frame as mutated by the call:
`pd.to_datetime` rewrites the timestamp column in place (a no-op on the
model's instants) and `_calculate_time_metrics` then moves the column into
the index.  The later steps see and the caller keeps that mutated frame. -/
noncomputable def processTrafficData (F : Frame) : ProcResult × Frame :=
  if F.obs.isEmpty then (.error ("No traffic data provided"), F)
  else
    let tm := calculateTimeMetrics F
    let F2 := tm.2
    (.ok ⟨tm.1, calculateSourceMetrics F2, calculateVolumeMetrics F2,
      detectTrafficAnomalies F2⟩, F2)

/-! ## Claim theorems for the Traffic Data Processor (C1, C3) -/

/-- C1 (counterexample): on an empty batch `process_traffic_data` returns the
error dict `{'error': 'No traffic data provided'}`, not a zeroed metrics
report — the claim that an empty batch succeeds with no error is false. -/
theorem c1_counterexample :
    (processTrafficData ⟨[], true, false, true, true⟩).1
      = .error ("No traffic data provided") := by
  rfl

/-- C1 (amended): for every empty batch, `process(B)` returns the error dict
`{'error': 'No traffic data provided'}` — empty input **is** an error
condition in this code — and the input frame is returned untouched. -/
theorem c1_empty_batch_error (F : Frame) (h : F.obs = []) :
    processTrafficData F = (.error ("No traffic data provided"), F) := by
  simp [processTrafficData, h]

/-- C1 (witness): the amended statement at a concrete empty frame. -/
theorem c1_empty_batch_error_witness :
    processTrafficData ⟨[], true, false, true, true⟩
      = (.error ("No traffic data provided"), ⟨[], true, false, true, true⟩) :=
  c1_empty_batch_error ⟨[], true, false, true, true⟩ rfl

/-- C3 (counterexample): `process` is not side-effect-free: on a concrete
one-row batch with a timestamp column, the frame after the call differs from
the frame before it (the timestamp column has been moved into the index). -/
theorem c3_counterexample :
    (processTrafficData ⟨[⟨0, ("10.0.0.1"), 100⟩], true, false, true, true⟩).2
      ≠ ⟨[⟨0, ("10.0.0.1"), 100⟩], true, false, true, true⟩ := by
  simp [processTrafficData, calculateTimeMetrics]

/-- C3 (amended): `process(B)` mutates its input exactly when the batch is
non-empty and has a timestamp column: the timestamp column is removed from
the column set and becomes the index (rows and the other columns are kept);
empty batches and batches without a timestamp column come back unchanged. -/
theorem c3_mutation (F : Frame) :
    (processTrafficData F).2 =
      (if F.obs.isEmpty || !F.hasTs then F
       else ⟨F.obs, false, true, F.hasSrc, F.hasBytes⟩) := by
  by_cases he : F.obs.isEmpty
  · simp [processTrafficData, he]
  · by_cases ht : F.hasTs
    · simp [processTrafficData, calculateTimeMetrics, he, ht]
    · simp [processTrafficData, calculateTimeMetrics, he, ht]

/-! ## Entropy bounds

The anomaly-score range claim needs the maximum-entropy bound
`H ≤ log2 k` for a distribution over `k` outcomes; it is proved from the
elementary `log x ≤ x - 1`. -/

/-- Sums of list maps distribute over division by a constant. -/
theorem sum_map_div_const {α β : Type} [DivisionRing α] (L : List β) (f : β → α) (t : α) :
    (L.map (fun v => f v / t)).sum = (L.map f).sum / t := by
  induction L with
  | nil => simp
  | cons a l ih => simp [ih, add_div]

/-- Sum of an affine image of a list. -/
theorem sum_map_affine (L : List ℝ) (c d : ℝ) :
    (L.map (fun p => p * c + (d - p))).sum
      = L.sum * c + (L.length : ℝ) * d - L.sum := by
  induction L with
  | nil => simp
  | cons a l ih =>
      simp only [List.map_cons, List.sum_cons, ih, List.length_cons]
      push_cast
      ring

/-- Negation moves inside a list sum. -/
theorem neg_sum_map (L : List ℝ) (f : ℝ → ℝ) :
    -((L.map f).sum) = (L.map (fun p => -(f p))).sum := by
  induction L with
  | nil => simp
  | cons a l ih =>
      simp only [List.map_cons, List.sum_cons, ← ih]
      ring

/-- Termwise Gibbs bound: for positive `p` and `k`,
`-(p·log p) ≤ p·log k + (1/k - p)`. -/
theorem neg_mul_log_le_affine (p k : ℝ) (hp : 0 < p) (hk : 0 < k) :
    -(p * Real.log p) ≤ p * Real.log k + (1 / k - p) := by
  have h1 : Real.log (1 / (p * k)) ≤ 1 / (p * k) - 1 :=
    Real.log_le_sub_one_of_pos (by positivity)
  have h2 : Real.log (1 / (p * k)) = -(Real.log p + Real.log k) := by
    rw [one_div, Real.log_inv, Real.log_mul hp.ne' hk.ne']
  have h3 : p * Real.log (1 / (p * k)) ≤ p * (1 / (p * k) - 1) :=
    mul_le_mul_of_nonneg_left h1 hp.le
  have hpne : p ≠ 0 := hp.ne'
  have hkne : k ≠ 0 := hk.ne'
  have h4 : p * (1 / (p * k) - 1) = 1 / k - p := by
    field_simp
    ring
  have h5 : p * -(Real.log p + Real.log k)
      = -(p * Real.log p) - p * Real.log k := by ring
  rw [h2, h4, h5] at h3
  linarith

/-- Gibbs inequality for a list of probabilities: the entropy (natural log)
is at most the log of the number of outcomes. -/
theorem sum_neg_mul_log_le_log_length (L : List ℝ) (hne : L ≠ [])
    (hpos : ∀ p ∈ L, 0 < p) (hsum : L.sum = 1) :
    -((L.map (fun p => p * Real.log p)).sum) ≤ Real.log ((L.length : ℝ)) := by
  have hk : 0 < ((L.length : ℝ)) := by
    have := List.length_pos.mpr hne
    exact_mod_cast this
  rw [neg_sum_map]
  have hpoint : ∀ p ∈ L, -(p * Real.log p)
      ≤ p * Real.log ((L.length : ℝ)) + (1 / (L.length : ℝ) - p) :=
    fun p hp => neg_mul_log_le_affine p _ (hpos p hp) hk
  have hle := List.sum_le_sum hpoint
  have heq := sum_map_affine L (Real.log ((L.length : ℝ))) (1 / (L.length : ℝ))
  rw [hsum] at heq
  have hkk : ((L.length : ℝ)) * (1 / (L.length : ℝ)) = 1 := by
    field_simp
  rw [hkk] at heq
  rw [heq] at hle
  linarith

/-- Entropy upper bound: for a non-empty list of positive values, the base-2
Shannon entropy of the normalized distribution is at most `log2` of the
number of values. -/
theorem calculateEntropy_le_logb_length (values : List ℚ) (hne : values ≠ [])
    (hpos : ∀ v ∈ values, 0 < v) :
    calculateEntropy values ≤ Real.logb 2 ((values.length : ℝ)) := by
  have htot : 0 < values.sum := by
    rcases values with _ | ⟨v, vs⟩
    · exact absurd rfl hne
    · have h1 : 0 < v := hpos v (List.mem_cons_self v vs)
      have h2 : v ≤ (v :: vs).sum :=
        List.single_le_sum (fun x hx => (hpos x hx).le) v (List.mem_cons_self v vs)
      linarith
  have h0 : values.isEmpty = false := by
    simpa [List.isEmpty_iff] using hne
  unfold calculateEntropy
  simp only [h0, Bool.false_eq_true, if_false]
  rw [if_neg htot.ne']
  have hfilt : values.filter (fun v => decide (0 < v)) = values :=
    List.filter_eq_self.mpr (fun a ha => by simpa using hpos a ha)
  rw [hfilt]
  have hlog2 : (0 : ℝ) < Real.log 2 := Real.log_pos (by norm_num)
  -- the list of probabilities
  have hLpos : ∀ p ∈ values.map (fun v => ((v / values.sum : ℚ) : ℝ)), 0 < p := by
    intro p hp
    obtain ⟨v, hv, rfl⟩ := List.mem_map.1 hp
    have : (0 : ℚ) < v / values.sum := div_pos (hpos v hv) htot
    exact_mod_cast this
  have hLne : values.map (fun v => ((v / values.sum : ℚ) : ℝ)) ≠ [] := by
    simpa using hne
  have hLsum : (values.map (fun v => ((v / values.sum : ℚ) : ℝ))).sum = 1 := by
    have h1 : values.map (fun v => ((v / values.sum : ℚ) : ℝ))
        = values.map (fun v => (((v : ℚ) : ℝ) / ((values.sum : ℚ) : ℝ))) := by
      apply List.map_congr_left
      intro a ha
      push_cast
      ring
    have h2 := sum_map_div_const values (fun v => ((v : ℚ) : ℝ)) (((values.sum : ℚ) : ℝ))
    have h3 : ((values.sum : ℚ) : ℝ) = (values.map (fun v => ((v : ℚ) : ℝ))).sum := by
      exact Rat.cast_list_sum values
    rw [h1, h2, ← h3, div_self (Rat.cast_ne_zero.mpr htot.ne')]
  have hcore := sum_neg_mul_log_le_log_length
    (values.map (fun v => ((v / values.sum : ℚ) : ℝ))) hLne hLpos hLsum
  rw [List.map_map, List.length_map] at hcore
  simp only [Function.comp_def] at hcore
  -- turn the base-2 logs into natural logs and conclude
  simp only [Real.logb]
  simp only [← mul_div_assoc]
  rw [sum_map_div_const values
    (fun v => ((v / values.sum : ℚ) : ℝ) * Real.log ((v / values.sum : ℚ) : ℝ))
    (Real.log 2)]
  rw [← neg_div]
  exact (div_le_div_iff_of_pos_right hlog2).mpr hcore

/-! ## Structural facts about `value_counts` and the anomaly score -/

/-- Membership in `insertByCount` is membership in the inserted pair or in
the tail. -/
theorem mem_insertByCount (x p : String × Nat) (t : List (String × Nat)) :
    x ∈ insertByCount p t ↔ x = p ∨ x ∈ t := by
  induction t with
  | nil => simp [insertByCount]
  | cons q r ih =>
      simp only [insertByCount]
      split_ifs with h
      · simp only [List.mem_cons]
        try tauto
      · simp only [List.mem_cons, ih]
        try tauto

/-- Sorting by count keeps exactly the members. -/
theorem mem_foldr_insertByCount (x : String × Nat) (L : List (String × Nat)) :
    x ∈ L.foldr insertByCount [] ↔ x ∈ L := by
  induction L with
  | nil => simp
  | cons p t ih =>
      simp only [List.foldr_cons, mem_insertByCount, ih, List.mem_cons]

/-- Membership in `valueCounts` is membership in the unsorted count list. -/
theorem mem_valueCounts_iff (x : String × Nat) (l : List Obs) :
    x ∈ valueCounts l ↔ x ∈ sourceCountPairs l :=
  mem_foldr_insertByCount x (sourceCountPairs l)

/-- Elements surviving the first-occurrence fold came from the accumulator or
the list. -/
theorem mem_dedupFirst_aux (x : String) (L : List String) :
    ∀ acc, x ∈ L.foldl (fun acc s => if s ∈ acc then acc else acc ++ [s]) acc →
      x ∈ acc ∨ x ∈ L := by
  induction L with
  | nil => intro acc h; exact Or.inl h
  | cons a t ih =>
      intro acc h
      rcases ih _ h with h1 | h1
      · dsimp only at h1
        by_cases ha : a ∈ acc
        · rw [if_pos ha] at h1
          exact Or.inl h1
        · rw [if_neg ha] at h1
          rcases List.mem_append.1 h1 with h2 | h2
          · exact Or.inl h2
          · simp only [List.mem_singleton] at h2
            subst h2
            exact Or.inr (List.mem_cons_self _ _)
      · exact Or.inr (List.mem_cons_of_mem a h1)

/-- Each element of `dedupFirst L` is an element of `L`. -/
theorem mem_dedupFirst (x : String) (L : List String) (h : x ∈ dedupFirst L) :
    x ∈ L := by
  rcases mem_dedupFirst_aux x L [] h with h1 | h1
  · simp at h1
  · exact h1

/-- Every per-source count is positive (`value_counts` only lists sources
that occur). -/
theorem sourceCountPairs_count_pos (l : List Obs) (x : String × Nat)
    (hx : x ∈ sourceCountPairs l) : 0 < x.2 := by
  unfold sourceCountPairs at hx
  obtain ⟨s, hs, rfl⟩ := List.mem_map.1 hx
  have hsl : s ∈ l.map (fun o => o.src) := mem_dedupFirst s _ hs
  obtain ⟨o, ho, rfl⟩ := List.mem_map.1 hsl
  have hmem : o ∈ l.filter (fun o2 => o2.src == o.src) := by
    simp [List.mem_filter, ho]
  exact List.length_pos.mpr (List.ne_nil_of_mem hmem)

/-- Every count in the sorted count list is positive. -/
theorem valueCounts_count_pos (l : List Obs) (x : String × Nat)
    (hx : x ∈ valueCounts l) : 0 < x.2 :=
  sourceCountPairs_count_pos l x ((mem_valueCounts_iff x l).1 hx)

/-- The normalized-entropy contribution of `_calculate_anomaly_score` is
non-negative whenever at least two distinct sources exist (the entropy is at
most `log2` of the distinct-source count). -/
theorem entropyContribution_nonneg (l : List Obs)
    (hk : 1 < (valueCounts l).length) :
    0 ≤ (1 - calculateEntropy ((valueCounts l).map (fun p => (p.2 : ℚ))) /
        Real.logb 2 ((valueCounts l).length : ℝ)) * 2 := by
  have hkR : (1 : ℝ) < ((valueCounts l).length : ℝ) := by exact_mod_cast hk
  have hL : 0 < Real.logb 2 ((valueCounts l).length : ℝ) :=
    Real.logb_pos (by norm_num) hkR
  have hne : (valueCounts l).map (fun p => (p.2 : ℚ)) ≠ [] := by
    intro hcontra
    have hlen := congrArg List.length hcontra
    simp only [List.length_map, List.length_nil] at hlen
    omega
  have hpos : ∀ v ∈ (valueCounts l).map (fun p => (p.2 : ℚ)), 0 < v := by
    intro v hv
    obtain ⟨p, hp, rfl⟩ := List.mem_map.1 hv
    exact_mod_cast valueCounts_count_pos l p hp
  have hE := calculateEntropy_le_logb_length _ hne hpos
  rw [List.length_map] at hE
  have hdiv : calculateEntropy ((valueCounts l).map (fun p => (p.2 : ℚ))) /
      Real.logb 2 ((valueCounts l).length : ℝ) ≤ 1 :=
    (div_le_one hL).mpr hE
  linarith

/-- The anomaly score is clamped to `[0, 10]` for every frame, every
high-volume list and every concentration flag. -/
theorem calculateAnomalyScore_mem_Icc (G : Frame) (hv : List HighVolumePeriod)
    (conc : Bool) :
    0 ≤ calculateAnomalyScore G hv conc ∧ calculateAnomalyScore G hv conc ≤ 10 := by
  have h1 : (0 : ℝ) ≤ (if !hv.isEmpty then min 3 ((hv.length : ℝ) * 0.5) else 0) := by
    split_ifs
    · exact le_min (by norm_num) (by positivity)
    · exact le_refl 0
  have h2 : (0 : ℝ) ≤ (if conc then (3 : ℝ) else 0) := by
    split_ifs <;> norm_num
  have h3 : (0 : ℝ) ≤ (if G.hasSrc && !G.obs.isEmpty then
      (if 1 < (valueCounts G.obs).length then
        (1 - calculateEntropy ((valueCounts G.obs).map (fun p => (p.2 : ℚ))) /
            Real.logb 2 ((valueCounts G.obs).length : ℝ)) * 2
       else 0) else 0) := by
    split_ifs with hA hB
    · exact entropyContribution_nonneg G.obs hB
    · exact le_refl 0
    · exact le_refl 0
  have h4 : (0 : ℝ) ≤ (if 1000 < G.obs.length then (2 : ℝ) else 0) := by
    split_ifs <;> norm_num
  unfold calculateAnomalyScore
  exact ⟨le_min (by norm_num) (by linarith), min_le_left _ _⟩

/-- The anomaly score with no reported high-volume window, written in the
spec's closed form: the `0.5·min(6, n)` window term (here 0), the
concentration term, the entropy term guarded by a source column **and** at
least two distinct sources, and the large-batch term. -/
theorem calculateAnomalyScore_empty_hv (G : Frame) (conc : Bool) :
    calculateAnomalyScore G [] conc =
      min 10 (0.5 * min 6 ((([] : List HighVolumePeriod).length : ℝ))
        + (if conc then (3 : ℝ) else 0)
        + (if G.hasSrc = true ∧ ¬G.obs.isEmpty = true ∧ 1 < (valueCounts G.obs).length then
            (1 - calculateEntropy ((valueCounts G.obs).map (fun p => (p.2 : ℚ))) /
              Real.logb 2 ((valueCounts G.obs).length : ℝ)) * 2
          else 0)
        + (if 1000 < G.obs.length then (2 : ℝ) else 0)) := by
  unfold calculateAnomalyScore
  by_cases hA : G.hasSrc = true <;> by_cases hB : G.obs.isEmpty = true <;>
    by_cases hC : 1 < (valueCounts G.obs).length <;>
      simp [hA, hB, hC]

/-- What `process`'s time-metrics step does to the frame: the rows and the
other column flags survive; the timestamp column never survives (it is moved
into the index when present). -/
theorem calculateTimeMetrics_frame (F : Frame) :
    (calculateTimeMetrics F).2.obs = F.obs ∧
    (calculateTimeMetrics F).2.hasTs = false ∧
    (calculateTimeMetrics F).2.hasSrc = F.hasSrc ∧
    (calculateTimeMetrics F).2.hasBytes = F.hasBytes := by
  by_cases ht : F.hasTs = true
  · simp [calculateTimeMetrics, ht]
  · have hb : F.hasTs = false := by simpa using ht
    simp [calculateTimeMetrics, hb]

/-! ## Claim theorems for the anomaly score (C6) -/

/-- C6 (amended): for every batch accepted by `process` (non-empty), the
composite anomaly score lies in [0, 10] and equals
`min(10, 0.5·min(6, number of reported high-volume windows)
+ 3.0 if the source-concentration flag is set
+ 2.0·(1 − entropy / log2 k) — added only when a source column exists **and**
the distinct-source count k is at least 2 —
+ 2.0 if the batch size exceeds 1000)`.
The code adds no entropy term when k ≤ 1, where the claimed formula
(normalized entropy 0) adds the full 2.0. -/
theorem c6_anomaly_score_formula (F : Frame) (a : Anomalies)
    (h : (processTrafficData F).1.anomaliesBlock = some a) :
    (0 ≤ a.anomaly_score ∧ a.anomaly_score ≤ 10) ∧
    a.anomaly_score = min 10 (
      0.5 * min 6 ((a.high_volume_periods.length : ℝ))
      + (if a.source_concentration then (3 : ℝ) else 0)
      + (if F.hasSrc = true ∧ ¬F.obs.isEmpty = true ∧ 1 < (valueCounts F.obs).length then
          (1 - calculateEntropy ((valueCounts F.obs).map (fun p => (p.2 : ℚ))) /
            Real.logb 2 ((valueCounts F.obs).length : ℝ)) * 2
        else 0)
      + (if 1000 < F.obs.length then (2 : ℝ) else 0)) := by
  by_cases he : F.obs.isEmpty = true
  · exfalso
    simp [processTrafficData, he, ProcResult.anomaliesBlock] at h
  · obtain ⟨hobs, hts, hsrc, hbytes⟩ := calculateTimeMetrics_frame F
    have hh : (processTrafficData F).1.anomaliesBlock
        = some (detectTrafficAnomalies (calculateTimeMetrics F).2) := by
      simp [processTrafficData, he, ProcResult.anomaliesBlock]
    rw [hh] at h
    have hdet : a = detectTrafficAnomalies (calculateTimeMetrics F).2 :=
      (Option.some.inj h).symm
    have hne2 : ¬(calculateTimeMetrics F).2.obs.isEmpty = true := by
      rw [hobs]; exact he
    have hc : a = ⟨[],
        (if (calculateTimeMetrics F).2.hasSrc && !(calculateTimeMetrics F).2.obs.isEmpty
          then decide (20 < topSourcePct (calculateTimeMetrics F).2.obs) else false), [],
        calculateAnomalyScore (calculateTimeMetrics F).2 []
          (if (calculateTimeMetrics F).2.hasSrc && !(calculateTimeMetrics F).2.obs.isEmpty
            then decide (20 < topSourcePct (calculateTimeMetrics F).2.obs) else false)⟩ := by
      rw [hdet]
      unfold detectTrafficAnomalies
      rw [if_neg hne2]
      simp only [hts, Bool.false_eq_true, if_false]
    rw [hc]
    dsimp only
    constructor
    · exact calculateAnomalyScore_mem_Icc _ [] _
    · rw [calculateAnomalyScore_empty_hv, hobs, hsrc]

/-- The concrete single-source one-row batch used to witness C6. -/
def c6WitnessFrame : Frame := ⟨[⟨0, ("w1"), 50⟩], false, false, true, false⟩

/-- The anomalies block `process` reports for `c6WitnessFrame`: no
high-volume window, concentration flag set, score 3. -/
noncomputable def c6WitnessAnoms : Anomalies := ⟨[], true, [], (3 : ℝ)⟩

/-- C6 (witness): the amended statement instantiated at the concrete one-row
single-source batch, whose reported anomaly score is 3. -/
theorem c6_anomaly_score_formula_witness :
    (0 ≤ c6WitnessAnoms.anomaly_score ∧ c6WitnessAnoms.anomaly_score ≤ 10) ∧
    c6WitnessAnoms.anomaly_score = min 10 (
      0.5 * min 6 ((c6WitnessAnoms.high_volume_periods.length : ℝ))
      + (if c6WitnessAnoms.source_concentration then (3 : ℝ) else 0)
      + (if c6WitnessFrame.hasSrc = true ∧ ¬c6WitnessFrame.obs.isEmpty = true ∧
            1 < (valueCounts c6WitnessFrame.obs).length then
          (1 - calculateEntropy ((valueCounts c6WitnessFrame.obs).map (fun p => (p.2 : ℚ))) /
            Real.logb 2 ((valueCounts c6WitnessFrame.obs).length : ℝ)) * 2
        else 0)
      + (if 1000 < c6WitnessFrame.obs.length then (2 : ℝ) else 0)) :=
  c6_anomaly_score_formula c6WitnessFrame c6WitnessAnoms (by
    norm_num [c6WitnessFrame, c6WitnessAnoms, processTrafficData, calculateTimeMetrics,
      detectTrafficAnomalies, calculateAnomalyScore, ProcResult.anomaliesBlock,
      topSourcePct, topSourceCount, valueCounts, sourceCountPairs, dedupFirst,
      insertByCount, Anomalies.mk.injEq, min_def])

/-- C6 (counterexample): for the concrete two-row single-source batch with no
timestamp column, `process` reports anomaly score 3 — the code adds **no**
entropy term when there is exactly one distinct source — while the claimed
formula (whose normalized entropy is 0 when the distinct-source count is ≤ 1,
with the concentration flag set, no high-volume window and batch size ≤ 1000)
evaluates to `min(10, 0 + 3 + 2·(1−0) + 0) = 5`. -/
theorem c6_counterexample :
    (processTrafficData
        ⟨[⟨0, ("a"), 100⟩, ⟨0, ("a"), 100⟩], false, false, true, true⟩).1.anomaliesBlock
      = some ⟨[], true, [], (3 : ℝ)⟩ ∧
    min (10 : ℝ) (0.5 * min 6 0 + 3 + 2 * (1 - 0) + 0) = 5 ∧
    (3 : ℝ) ≠ 5 := by
  refine ⟨?_, by norm_num [min_def], by norm_num⟩
  norm_num [processTrafficData, calculateTimeMetrics,
    detectTrafficAnomalies, calculateAnomalyScore, ProcResult.anomaliesBlock,
    topSourcePct, topSourceCount, valueCounts, sourceCountPairs, dedupFirst,
    insertByCount, Anomalies.mk.injEq, min_def]

/-! ## Feature extraction (`extract_traffic_features`, lines 701-751) -/

/-- Hour of day of an epoch-second timestamp (`dt.hour`). -/
def hourOf (ts : Nat) : Nat := ts / 3600 % 24

/-- Day of week (`dt.dayofweek`, Monday = 0; epoch day 0 was a Thursday). -/
def dayOfWeekOf (ts : Nat) : Nat := (ts / 86400 + 3) % 7

/-- Minute of hour (`dt.minute`). -/
def minuteOfHourOf (ts : Nat) : Nat := ts / 60 % 60

/-- Requests in the minute bucket containing the observation
(`resample('1T').size()` mapped back over `dt.floor('T')`). -/
def requestsInMinute (l : List Obs) (o : Obs) : Nat :=
  (l.filter (fun o2 => minuteOf o2.ts == minuteOf o.ts)).length

/-- One row of the feature table; each field is present exactly when the
column of the input it derives from is present. -/
structure FeatureRow where
  hour : Option Nat
  day_of_week : Option Nat
  minute : Option Nat
  source_ip_frequency : Option Nat
  source_ip_entropy : Option ℝ
  request_size : Option ℚ
  request_size_normalized : Option ℝ
  requests_per_minute : Option Nat

/-- The per-row feature computation of `extract_traffic_features`:
time-of-day fields from the timestamp; the source frequency and its entropy
contribution `-p·log2 p`; the raw and standardized size
`(size - mean)/std` — `std` is the square root of the sample variance, and
the model's division by a zero `std` yields 0 (the spec leaves 0-vs-NaN to
the implementer); and the per-minute request count. -/
noncomputable def featureRowOf (F : Frame) (o : Obs) : FeatureRow :=
  ⟨if F.hasTs then some (hourOf o.ts) else none,
   if F.hasTs then some (dayOfWeekOf o.ts) else none,
   if F.hasTs then some (minuteOfHourOf o.ts) else none,
   if F.hasSrc then
     some ((F.obs.filter (fun o2 => o2.src == o.src)).length)
   else none,
   if F.hasSrc then
     some (
       let p : ℚ := ((F.obs.filter (fun o2 => o2.src == o.src)).length : ℚ)
         / (F.obs.length : ℚ)
       if 0 < p then -((p : ℝ) * Real.logb 2 ((p : ℚ) : ℝ)) else 0)
   else none,
   if F.hasBytes then some o.bytes else none,
   if F.hasBytes then
     some ((((o.bytes - meanBytes F.obs) : ℚ) : ℝ) /
       Real.sqrt (((listVar (F.obs.map (fun o2 => o2.bytes)) : ℚ) : ℝ)))
   else none,
   if F.hasTs then some (requestsInMinute F.obs o) else none⟩

/-- Model of `extract_traffic_features` (lines 701-751): one feature row per
observation when at least one recognized column exists.  When none of the
three recognized columns is present, no column is ever assigned to the
`features` DataFrame and the result stays the empty frame. -/
noncomputable def extractTrafficFeatures (F : Frame) : List FeatureRow :=
  if F.obs.isEmpty then []
  else if !(F.hasTs || F.hasSrc || F.hasBytes) then []
  else F.obs.map (featureRowOf F)

/-! ## Claim theorems for the Feature Extractor (C9) -/

/-- C9 (counterexample): on a non-empty batch carrying none of the recognized
columns (for example a frame with only an `attack_type` column), the feature
table is empty — not one row per observation. -/
theorem c9_counterexample :
    (extractTrafficFeatures ⟨[⟨0, ("x"), 1⟩], false, false, false, false⟩).length = 0 ∧
    (⟨[⟨0, ("x"), 1⟩], false, false, false, false⟩ : Frame).obs.length = 1 :=
  ⟨rfl, rfl⟩

/-- C9 (amended): whenever at least one recognized column (timestamp,
source_ip, bytes) is present, the Feature Extractor returns exactly one
feature row per observation, in input order: the i-th row is computed from
the i-th observation. -/
theorem c9_one_row_per_obs (F : Frame)
    (h : F.hasTs = true ∨ F.hasSrc = true ∨ F.hasBytes = true) :
    (extractTrafficFeatures F).length = F.obs.length ∧
    ∀ i : Nat, (extractTrafficFeatures F)[i]?
      = (F.obs[i]?).map (featureRowOf F) := by
  have hcols : (F.hasTs || F.hasSrc || F.hasBytes) = true := by
    rcases h with h | h | h <;> simp [h]
  have hext : extractTrafficFeatures F = F.obs.map (featureRowOf F) := by
    unfold extractTrafficFeatures
    by_cases he : F.obs.isEmpty = true
    · rw [if_pos he]
      have hnil : F.obs = [] := by simpa [List.isEmpty_iff] using he
      rw [hnil]
      rfl
    · rw [if_neg he, hcols]
      simp
  constructor
  · rw [hext, List.length_map]
  · intro i
    rw [hext, List.getElem?_map]

/-- The concrete one-row batch (size column only) used to witness C9. -/
def c9WitnessFrame : Frame := ⟨[⟨0, ("x"), 1⟩], false, false, false, true⟩

/-- C9 (witness): the amended statement at a concrete one-row batch with only
the `bytes` column: one feature row, derived from the single observation. -/
theorem c9_one_row_per_obs_witness :
    (extractTrafficFeatures c9WitnessFrame).length = c9WitnessFrame.obs.length ∧
    (extractTrafficFeatures c9WitnessFrame)[0]?
      = (c9WitnessFrame.obs[0]?).map (featureRowOf c9WitnessFrame) :=
  ⟨(c9_one_row_per_obs c9WitnessFrame (Or.inr (Or.inr rfl))).1,
   (c9_one_row_per_obs c9WitnessFrame (Or.inr (Or.inr rfl))).2 0⟩

end DoSDefender
